import Mathlib

/-
  Verification development for the mail.megabyte.space worker
  (Cloudflare Worker + Durable Object reverse proxy for Listmonk).

  Shallow embedding of src/index.ts (the primary implementation) and of the
  near-duplicate secondary implementation found in the same corpus.

  Modelling conventions:
  - HTTP headers are association lists of (name, value) String pairs.
    The JS Headers class is case-insensitive in names; `hset` and `hlookup`
    below compare names through String.toLower. Headers never holds two
    entries with the same (case-insensitive) name, which the first-match
    replace in `hset` reflects.
  - Response bodies are a sum: raw bytes (the buffered upstream body),
    a flat string-valued JSON object (every JSON body the worker builds is
    a flat object whose values are all strings), or a plain text string
    (the bodies built by the duplicate implementation).
  - `new Date().toISOString()` is modelled by a timestamp string parameter.
  - `crypto.randomUUID()` is modelled by a UUID string parameter; the
    derived request id is computed from it exactly as the source does.
  - The network is an oracle: the upstream container behaviour for the
    forwarded request is a parameter (respond after a delay, or fail with a
    transport error after a delay), and the 30-second abort timer is applied
    to it exactly as the AbortController logic in the source does.
-/

-- ─── Header maps (JS Headers semantics) ─────────────────────────────────────

/-- ASCII-lowercase a header name, character by character (the
case-insensitive name comparison the JS Headers class performs). -/
def lowerName (s : String) : String :=
  String.mk (s.data.map Char.toLower)

/-- Headers.set: replace the value of the case-insensitively matching entry,
or append a new entry when none matches. -/
def hset : List (String × String) → String → String → List (String × String)
  | [], k, v => [(k, v)]
  | p :: rest, k, v =>
      if lowerName p.1 = lowerName k then (p.1, v) :: rest
      else p :: hset rest k v

/-- Headers.get: first entry whose name matches case-insensitively. -/
def hlookup : List (String × String) → String → Option String
  | [], _ => none
  | p :: rest, k =>
      if lowerName p.1 = lowerName k then some p.2 else hlookup rest k

-- ─── Bodies and responses ───────────────────────────────────────────────────

/-- A response body: buffered upstream bytes, a flat string-valued JSON
object (in field order), or a plain text string. -/
inductive Body where
  | bytes (bs : List Nat)
  | jsonObj (fields : List (String × String))
  | textBody (s : String)
  deriving DecidableEq

/-- The bytes of a body, when it is a byte body. -/
def bodyBytes : Body → Option (List Nat)
  | .bytes bs => some bs
  | _ => none

/-- The field names of a JSON object body, in order. -/
def bodyFieldNames : Body → Option (List String)
  | .jsonObj fs => some (fs.map Prod.fst)
  | _ => none

/-- The string value of a field of a JSON object body. -/
def jsonStrField (b : Body) (k : String) : Option String :=
  match b with
  | .jsonObj fs => (fs.find? (fun p => p.1 = k)).map Prod.snd
  | _ => none

/-- An HTTP response: status code, status text, headers, body. -/
structure HttpResponse where
  status : Nat
  statusText : String
  headers : List (String × String)
  body : Body
  deriving DecidableEq

/-- An inbound HTTP request: method, URL path, headers, optional buffered
body bytes. -/
structure HttpRequest where
  method : String
  pathname : String
  headers : List (String × String)
  body : Option (List Nat)
  deriving DecidableEq

-- ─── Constants (src/index.ts) ───────────────────────────────────────────────

/-- Current deployment version. -/
def VERSION : String := "2.1.0"

/-- Stable Durable Object name for singleton routing. -/
def DURABLE_OBJECT_NAME : String := "listmonk-v11"

/-- HTTP status codes used throughout the worker. -/
def HTTP_OK : Nat := 200

/-- Bad gateway status. -/
def HTTP_BAD_GATEWAY : Nat := 502

/-- Service unavailable status. -/
def HTTP_SERVICE_UNAVAILABLE : Nat := 503

/-- Gateway timeout status. -/
def HTTP_GATEWAY_TIMEOUT : Nat := 504

/-- Maximum time (ms) to wait for a container response before timing out. -/
def CONTAINER_TIMEOUT_MS : Nat := 30000

/-- Headers added to every response for observability. -/
def STANDARD_HEADERS : List (String × String) :=
  [("X-Powered-By", "Cloudflare Containers"), ("X-App-Version", VERSION)]

-- ─── Environment bindings ───────────────────────────────────────────────────

/-- Environment bindings injected by the Workers runtime (vars and secrets).
The Durable Object namespace binding is modelled separately, as the routing
oracle. -/
structure Env where
  APP_DOMAIN : String
  DB_HOST : String
  DB_PORT : String
  DB_USER : String
  DB_PASSWORD : String
  DB_NAME : String
  DB_SSL_MODE : String
  ADMIN_USER : String
  ADMIN_PASSWORD : String
  deriving DecidableEq

-- ─── Utilities (src/index.ts) ───────────────────────────────────────────────

/-- The JS expression s.replace with the dash regex: drop every dash. -/
def stripDashes (s : String) : String :=
  String.mk (s.data.filter (fun c => c != '-'))

/-- The JS expression s.substring applied at 0 and 12: the first 12
characters. -/
def substringTake12 (s : String) : String :=
  String.mk (s.data.take 12)

/-- generateRequestId: strip the dashes from the given UUID and keep the
first 12 characters. The UUID produced by crypto.randomUUID at run time is
the argument. -/
def generateRequestId (uuid : String) : String :=
  substringTake12 (stripDashes uuid)

/-- buildErrorResponse: a structured JSON error response. The timestamp
produced by Date.toISOString at run time is the argument ts. -/
def buildErrorResponse (message code : String) (status : Nat)
    (requestId ts : String) : HttpResponse :=
  { status := status
    statusText := ""
    headers :=
      [("Content-Type", "application/json"),
       ("X-Request-Id", requestId)] ++ STANDARD_HEADERS
    body := .jsonObj
      [("error", message),
       ("code", code),
       ("request_id", requestId),
       ("timestamp", ts),
       ("version", VERSION)] }

/-- augmentResponse: adds standard headers and security headers to an
outgoing response, via Headers.set calls in source order. -/
def augmentResponse (response : HttpResponse) (requestId : String) :
    HttpResponse :=
  let h1 := hset response.headers "X-Request-Id" requestId
  let h2 := hset h1 "X-Container-Proxied" "true"
  let h3 := STANDARD_HEADERS.foldl (fun h kv => hset h kv.1 kv.2) h2
  let h4 := hset h3 "X-Content-Type-Options" "nosniff"
  let h5 := hset h4 "X-Frame-Options" "SAMEORIGIN"
  let h6 := hset h5 "Referrer-Policy" "strict-origin-when-cross-origin"
  { status := response.status
    statusText := response.statusText
    headers := h6
    body := response.body }

-- ─── Durable Object: ListmonkContainer ──────────────────────────────────────

/-- envVars: environment variables injected into the Listmonk container at
startup. jsOr models the JS logical-or defaulting on a string: the only
falsy string is the empty string. -/
def jsOr (s d : String) : String :=
  if s = "" then d else s

/-- The envVars object of ListmonkContainer, in source order. -/
def envVars (e : Env) : List (String × String) :=
  [("LISTMONK_app__address", "0.0.0.0:9000"),
   ("LISTMONK_app__root_url", "https://" ++ e.APP_DOMAIN),
   ("LISTMONK_db__host", e.DB_HOST),
   ("LISTMONK_db__port", e.DB_PORT),
   ("LISTMONK_db__user", e.DB_USER),
   ("LISTMONK_db__password", e.DB_PASSWORD),
   ("LISTMONK_db__database", e.DB_NAME),
   ("LISTMONK_db__ssl_mode", e.DB_SSL_MODE),
   ("LISTMONK_db__max_open", "25"),
   ("LISTMONK_db__max_idle", "25"),
   ("LISTMONK_db__max_lifetime", "300s"),
   ("LISTMONK_ADMIN_USER", jsOr e.ADMIN_USER "admin"),
   ("LISTMONK_ADMIN_PASSWORD", jsOr e.ADMIN_PASSWORD "admin"),
   ("LISTMONK_ADMIN_API_USER", "api_admin")]

/-- What the upstream container would send back for the forwarded request. -/
structure UpstreamResp where
  status : Nat
  statusText : String
  headers : List (String × String)
  body : List Nat
  deriving DecidableEq

/-- Behaviour of the upstream for one forwarded request: either it answers
after delayMs milliseconds, or the transport fails after delayMs
milliseconds with an error carrying a message. -/
inductive UpstreamBehavior where
  | responds (delayMs : Nat) (resp : UpstreamResp)
  | failsWith (delayMs : Nat) (msg : String)
  deriving DecidableEq

/-- Milliseconds until the upstream interaction settles. -/
def ubDelay : UpstreamBehavior → Nat
  | .responds d _ => d
  | .failsWith d _ => d

/-- Outcome of awaiting containerFetch under the AbortController whose
timer fires at CONTAINER_TIMEOUT_MS: an abort that fires before the
interaction settles wins and surfaces as an AbortError. -/
inductive FetchOutcome where
  | ok (resp : UpstreamResp)
  | abortError
  | otherError (msg : String)
  deriving DecidableEq

/-- containerFetch with timeout protection, as in the source try block. -/
def containerFetchOutcome (ub : UpstreamBehavior) : FetchOutcome :=
  match ub with
  | .responds d r =>
      if CONTAINER_TIMEOUT_MS < d then .abortError else .ok r
  | .failsWith d msg =>
      if CONTAINER_TIMEOUT_MS < d then .abortError else .otherError msg

/-- ListmonkContainer.fetch (primary implementation): buffer the request
body, forward with timeout protection, buffer the response body, re-emit it
augmented; on AbortError report CONTAINER_TIMEOUT with status 504, on any
other caught error report CONTAINER_FETCH_ERROR with status 502. The uuid
and ts arguments stand for the run-time crypto.randomUUID and
Date.toISOString values; ub is the upstream behaviour for the forwarded
request. -/
def listmonkFetch (uuid ts : String) (req : HttpRequest)
    (ub : UpstreamBehavior) : HttpResponse :=
  let requestId := generateRequestId uuid
  match containerFetchOutcome ub with
  | .ok r =>
      let proxied : HttpResponse :=
        { status := r.status
          statusText := r.statusText
          headers := r.headers
          body := .bytes r.body }
      augmentResponse proxied requestId
  | .abortError =>
      buildErrorResponse "Container request timed out" "CONTAINER_TIMEOUT"
        HTTP_GATEWAY_TIMEOUT requestId ts
  | .otherError msg =>
      buildErrorResponse ("Container error: " ++ msg)
        "CONTAINER_FETCH_ERROR" HTTP_BAD_GATEWAY requestId ts

-- ─── Worker entry point ─────────────────────────────────────────────────────

/-- Outcome of resolving the Durable Object handle and delegating to it:
either the handle is reached and runs ListmonkContainer.fetch (with its own
run-time uuid and timestamp draws and its own upstream interaction), or
resolution/delegation itself throws with a message. -/
inductive DOOutcome where
  | reachable (uuid2 ts2 : String) (ub : UpstreamBehavior)
  | unreachable (msg : String)
  deriving DecidableEq

/-- The main worker fetch handler. Returns the response paired with a flag
that records whether the Durable Object handle was resolved (true only on
the proxy branch; the two diagnostic branches never touch the namespace
binding). -/
def workerFetch (e : Env) (uuid ts : String) (req : HttpRequest)
    (dOut : DOOutcome) : HttpResponse × Bool :=
  let requestId := generateRequestId uuid
  if req.pathname = "/__health" then
    ({ status := HTTP_OK
       statusText := ""
       headers :=
         [("Content-Type", "application/json"),
          ("X-Request-Id", requestId)] ++ STANDARD_HEADERS ++
         [("Cache-Control", "no-cache, no-store, must-revalidate")]
       body := .jsonObj
         [("status", "healthy"),
          ("version", VERSION),
          ("container", "listmonk"),
          ("database", "supabase-postgresql"),
          ("domain", e.APP_DOMAIN),
          ("uptime", "running"),
          ("timestamp", ts)] }, false)
  else if req.pathname = "/__version" then
    ({ status := HTTP_OK
       statusText := ""
       headers :=
         [("Content-Type", "application/json"),
          ("X-Request-Id", requestId)] ++ STANDARD_HEADERS
       body := .jsonObj
         [("version", VERSION),
          ("container", "listmonk/listmonk:latest"),
          ("runtime", "cloudflare-containers"),
          ("database", "supabase-postgresql")] }, false)
  else
    match dOut with
    | .reachable u2 t2 ub => (listmonkFetch u2 t2 req ub, true)
    | .unreachable msg =>
        (buildErrorResponse ("Service temporarily unavailable: " ++ msg)
          "DURABLE_OBJECT_ERROR" HTTP_SERVICE_UNAVAILABLE requestId ts, true)

-- ─── Duplicate (secondary) implementation in the corpus ─────────────────────

/-- Outcome of the duplicate containerFetch, which has no abort timer. -/
inductive DupOutcome where
  | ok (r : UpstreamResp)
  | err (msg : String)
  deriving DecidableEq

/-- ListmonkContainer.fetch of the duplicate implementation: on success it
re-emits the buffered body with X-Container-Override true; on any caught
error it returns a plain text 502 body. -/
def dupListmonkFetch (dOut : DupOutcome) : HttpResponse :=
  match dOut with
  | .ok r =>
      { status := r.status
        statusText := r.statusText
        headers := hset r.headers "X-Container-Override" "true"
        body := .bytes r.body }
  | .err msg =>
      { status := 502
        statusText := ""
        headers := [("X-Container-Override", "error")]
        body := .textBody ("Container error: " ++ msg) }

/-- Outcome of the duplicate worker entry point: either the Durable Object
handle is reached and runs the duplicate container fetch, or resolution
throws. -/
inductive DupDOOutcome where
  | reachable (d : DupOutcome)
  | unreachable (msg : String)
  deriving DecidableEq

/-- default.fetch of the duplicate implementation: delegate; on a caught
top-level error return a plain text 502 body. -/
def dupWorkerFetch (dOut : DupDOOutcome) : HttpResponse :=
  match dOut with
  | .reachable d => dupListmonkFetch d
  | .unreachable msg =>
      { status := 502
        statusText := ""
        headers := []
        body := .textBody ("Worker error: " ++ msg) }

-- ─── Derived shape predicates and fixtures ──────────────────────────────────

/-- The header names augmentResponse sets, in source order. -/
def addedHeaderNames : List String :=
  ["X-Request-Id", "X-Container-Proxied", "X-Powered-By", "X-App-Version",
   "X-Content-Type-Options", "X-Frame-Options", "Referrer-Policy"]

/-- Whether a body is a JSON object with exactly the five fields of the
structured error shape, in order. Every value of such an object is a
string by construction of Body.jsonObj. -/
def isStructuredErrorBody (b : Body) : Bool :=
  bodyFieldNames b ==
    some ["error", "code", "request_id", "timestamp", "version"]

/-- Drop the timestamp field of a JSON object body, for comparing two
diagnostic bodies up to their timestamps. -/
def filterTimestamp (b : Body) : Body :=
  match b with
  | .jsonObj fs => .jsonObj (fs.filter (fun p => p.1 != "timestamp"))
  | b => b

/-- A concrete environment for witnesses and counterexamples. -/
def sampleEnv : Env :=
  { APP_DOMAIN := "mail.megabyte.space"
    DB_HOST := "db.example.supabase.co"
    DB_PORT := "5432"
    DB_USER := "postgres"
    DB_PASSWORD := "dbsecret"
    DB_NAME := "postgres"
    DB_SSL_MODE := "require"
    ADMIN_USER := "listadmin"
    ADMIN_PASSWORD := "hunter2" }

/-- An environment whose admin credential variables are empty strings. -/
def emptyAdminEnv : Env :=
  { sampleEnv with ADMIN_USER := "", ADMIN_PASSWORD := "" }

/-- A concrete health-check request. -/
def healthReq : HttpRequest :=
  { method := "GET", pathname := "/__health", headers := [], body := none }

/-- A concrete version request. -/
def versionReq : HttpRequest :=
  { method := "GET", pathname := "/__version", headers := [], body := none }

/-- A concrete non-diagnostic request. -/
def adminReq : HttpRequest :=
  { method := "GET", pathname := "/admin", headers := [], body := none }

/-- A concrete upstream response whose header names avoid the seven names
augmentResponse sets. -/
def plainUpstream : UpstreamResp :=
  { status := 200
    statusText := "OK"
    headers := [("Content-Type", "text/html")]
    body := [72, 105] }

/-- A concrete upstream response that already carries one of the seven
header names augmentResponse sets. -/
def xfoUpstream : UpstreamResp :=
  { status := 200
    statusText := "OK"
    headers := [("X-Frame-Options", "DENY"), ("Content-Type", "text/html")]
    body := [72, 105] }

-- quick sanity checks on the embedding
example : generateRequestId "abcdefab-1234-4abc-8abc-0123456789ab" =
    "abcdefab1234" := by decide

example : hlookup (hset [("x-frame-options", "DENY")] "X-Frame-Options"
    "SAMEORIGIN") "X-Frame-Options" = some "SAMEORIGIN" := by decide

-- ─── Lemmas on header maps ──────────────────────────────────────────────────

theorem hlookup_hset_self (hs : List (String × String)) (k v : String) :
    hlookup (hset hs k v) k = some v := by
  induction hs with
  | nil => simp [hset, hlookup]
  | cons p rest ih =>
      by_cases h : lowerName p.1 = lowerName k
      · simp [hset, h, hlookup]
      · simp [hset, h, hlookup, ih]

theorem hlookup_hset_ne (hs : List (String × String)) (k v q : String)
    (h : lowerName q ≠ lowerName k) :
    hlookup (hset hs k v) q = hlookup hs q := by
  induction hs with
  | nil => simp [hset, hlookup, Ne.symm h]
  | cons p rest ih =>
      by_cases hp : lowerName p.1 = lowerName k
      · have hpq : ¬ lowerName p.1 = lowerName q :=
          fun hh => h (hh.symm.trans hp)
        simp only [hset]
        rw [if_pos hp]
        simp only [hlookup]
        rw [if_neg hpq, if_neg hpq]
      · simp only [hset]
        rw [if_neg hp]
        simp only [hlookup]
        by_cases hq : lowerName p.1 = lowerName q
        · rw [if_pos hq, if_pos hq]
        · rw [if_neg hq, if_neg hq]
          exact ih

theorem mem_hset_of_ne {p : String × String} {k : String}
    (hs : List (String × String)) (v : String)
    (hne : lowerName p.1 ≠ lowerName k) (hm : p ∈ hs) :
    p ∈ hset hs k v := by
  induction hs with
  | nil => cases hm
  | cons q rest ih =>
      rcases List.mem_cons.mp hm with h1 | h2
      · subst h1
        simp [hset, hne]
      · by_cases hq : lowerName q.1 = lowerName k
        · simp only [hset, if_pos hq]
          exact List.mem_cons_of_mem _ h2
        · simp only [hset, if_neg hq]
          exact List.mem_cons_of_mem _ (ih h2)

theorem exists_mem_hset {a b : String} (hs : List (String × String))
    (k v : String) (hm : (a, b) ∈ hs) :
    ∃ c, (a, c) ∈ hset hs k v := by
  induction hs with
  | nil => cases hm
  | cons q rest ih =>
      by_cases hq : lowerName q.1 = lowerName k
      · rcases List.mem_cons.mp hm with h1 | h2
        · refine ⟨v, ?_⟩
          simp only [hset, if_pos hq]
          have ha : q.1 = a := by rw [← h1]
          rw [ha]
          exact List.mem_cons_self _ _
        · refine ⟨b, ?_⟩
          simp only [hset, if_pos hq]
          exact List.mem_cons_of_mem _ h2
      · rcases List.mem_cons.mp hm with h1 | h2
        · refine ⟨b, ?_⟩
          simp only [hset, if_neg hq]
          exact h1 ▸ List.mem_cons_self _ _
        · obtain ⟨c, hc⟩ := ih h2
          refine ⟨c, ?_⟩
          simp only [hset, if_neg hq]
          exact List.mem_cons_of_mem _ hc

-- ─── Lemmas on augmentResponse ──────────────────────────────────────────────

theorem augment_headers_eq (resp : HttpResponse) (rid : String) :
    (augmentResponse resp rid).headers =
      hset (hset (hset (hset (hset (hset (hset resp.headers
        "X-Request-Id" rid) "X-Container-Proxied" "true")
        "X-Powered-By" "Cloudflare Containers")
        "X-App-Version" VERSION)
        "X-Content-Type-Options" "nosniff")
        "X-Frame-Options" "SAMEORIGIN")
        "Referrer-Policy" "strict-origin-when-cross-origin" := rfl

theorem augment_lookup_request_id (resp : HttpResponse) (rid : String) :
    hlookup (augmentResponse resp rid).headers "X-Request-Id" = some rid := by
  rw [augment_headers_eq]
  rw [hlookup_hset_ne _ _ _ _ (by decide)]
  rw [hlookup_hset_ne _ _ _ _ (by decide)]
  rw [hlookup_hset_ne _ _ _ _ (by decide)]
  rw [hlookup_hset_ne _ _ _ _ (by decide)]
  rw [hlookup_hset_ne _ _ _ _ (by decide)]
  rw [hlookup_hset_ne _ _ _ _ (by decide)]
  exact hlookup_hset_self _ _ _

theorem augment_lookup_proxied (resp : HttpResponse) (rid : String) :
    hlookup (augmentResponse resp rid).headers "X-Container-Proxied" =
      some "true" := by
  rw [augment_headers_eq]
  rw [hlookup_hset_ne _ _ _ _ (by decide)]
  rw [hlookup_hset_ne _ _ _ _ (by decide)]
  rw [hlookup_hset_ne _ _ _ _ (by decide)]
  rw [hlookup_hset_ne _ _ _ _ (by decide)]
  rw [hlookup_hset_ne _ _ _ _ (by decide)]
  exact hlookup_hset_self _ _ _

theorem augment_lookup_powered_by (resp : HttpResponse) (rid : String) :
    hlookup (augmentResponse resp rid).headers "X-Powered-By" =
      some "Cloudflare Containers" := by
  rw [augment_headers_eq]
  rw [hlookup_hset_ne _ _ _ _ (by decide)]
  rw [hlookup_hset_ne _ _ _ _ (by decide)]
  rw [hlookup_hset_ne _ _ _ _ (by decide)]
  rw [hlookup_hset_ne _ _ _ _ (by decide)]
  exact hlookup_hset_self _ _ _

theorem augment_lookup_app_version (resp : HttpResponse) (rid : String) :
    hlookup (augmentResponse resp rid).headers "X-App-Version" =
      some VERSION := by
  rw [augment_headers_eq]
  rw [hlookup_hset_ne _ _ _ _ (by decide)]
  rw [hlookup_hset_ne _ _ _ _ (by decide)]
  rw [hlookup_hset_ne _ _ _ _ (by decide)]
  exact hlookup_hset_self _ _ _

theorem augment_lookup_nosniff (resp : HttpResponse) (rid : String) :
    hlookup (augmentResponse resp rid).headers "X-Content-Type-Options" =
      some "nosniff" := by
  rw [augment_headers_eq]
  rw [hlookup_hset_ne _ _ _ _ (by decide)]
  rw [hlookup_hset_ne _ _ _ _ (by decide)]
  exact hlookup_hset_self _ _ _

theorem augment_lookup_frame_options (resp : HttpResponse) (rid : String) :
    hlookup (augmentResponse resp rid).headers "X-Frame-Options" =
      some "SAMEORIGIN" := by
  rw [augment_headers_eq]
  rw [hlookup_hset_ne _ _ _ _ (by decide)]
  exact hlookup_hset_self _ _ _

theorem augment_lookup_referrer_policy (resp : HttpResponse) (rid : String) :
    hlookup (augmentResponse resp rid).headers "Referrer-Policy" =
      some "strict-origin-when-cross-origin" := by
  rw [augment_headers_eq]
  exact hlookup_hset_self _ _ _

-- ─── Lemmas on buildErrorResponse and generateRequestId ─────────────────────

theorem buildError_status (m c : String) (s : Nat) (rid ts : String) :
    (buildErrorResponse m c s rid ts).status = s := rfl

theorem buildError_code (m c : String) (s : Nat) (rid ts : String) :
    jsonStrField (buildErrorResponse m c s rid ts).body "code" = some c := rfl

theorem buildError_error (m c : String) (s : Nat) (rid ts : String) :
    jsonStrField (buildErrorResponse m c s rid ts).body "error" = some m :=
  rfl

theorem buildError_request_id_header (m c : String) (s : Nat)
    (rid ts : String) :
    hlookup (buildErrorResponse m c s rid ts).headers "X-Request-Id" =
      some rid := rfl

theorem buildError_structured (m c : String) (s : Nat) (rid ts : String) :
    isStructuredErrorBody (buildErrorResponse m c s rid ts).body = true :=
  rfl

theorem generateRequestId_ne_empty {uuid : String}
    (h : stripDashes uuid ≠ "") : generateRequestId uuid ≠ "" := by
  intro hc
  apply h
  have hdata : (stripDashes uuid).data.take 12 = ([] : List Char) :=
    congrArg String.data hc
  cases hl : (stripDashes uuid).data with
  | nil =>
      calc stripDashes uuid = String.mk (stripDashes uuid).data := rfl
        _ = String.mk [] := by rw [hl]
        _ = "" := rfl
  | cons x xs =>
      rw [hl] at hdata
      simp at hdata

-- ─── Claim theorems ─────────────────────────────────────────────────────────

/-- C2: for every request whose upstream wait exceeds the 30 second bound,
the Lifecycle Proxy fetch returns status exactly 504 with a JSON body whose
code field equals CONTAINER_TIMEOUT. -/
theorem c2_timeout_returns_504 (uuid ts : String) (req : HttpRequest)
    (ub : UpstreamBehavior) (h : CONTAINER_TIMEOUT_MS < ubDelay ub) :
    (listmonkFetch uuid ts req ub).status = 504 ∧
    jsonStrField (listmonkFetch uuid ts req ub).body "code" =
      some "CONTAINER_TIMEOUT" := by
  have hout : containerFetchOutcome ub = .abortError := by
    cases ub with
    | responds d r =>
        simp only [ubDelay] at h
        simp [containerFetchOutcome, h]
    | failsWith d m =>
        simp only [ubDelay] at h
        simp [containerFetchOutcome, h]
  simp only [listmonkFetch, hout]
  exact ⟨rfl, rfl⟩

/-- Witness for C2 at a concrete input: delay 30001 ms exceeds the bound
and the proxy answers 504 with code CONTAINER_TIMEOUT. -/
theorem c2_witness :
    CONTAINER_TIMEOUT_MS <
      ubDelay (.responds 30001 ⟨200, "OK", [], []⟩) ∧
    ((listmonkFetch "abcdefab-1234-4abc-8abc-0123456789ab"
        "2026-01-15T10:30:00.000Z" adminReq
        (.responds 30001 ⟨200, "OK", [], []⟩)).status = 504 ∧
      jsonStrField (listmonkFetch "abcdefab-1234-4abc-8abc-0123456789ab"
        "2026-01-15T10:30:00.000Z" adminReq
        (.responds 30001 ⟨200, "OK", [], []⟩)).body "code" =
        some "CONTAINER_TIMEOUT") :=
  ⟨by decide,
   c2_timeout_returns_504 "abcdefab-1234-4abc-8abc-0123456789ab"
     "2026-01-15T10:30:00.000Z" adminReq
     (.responds 30001 ⟨200, "OK", [], []⟩) (by decide)⟩

/-- C3: for every request where the upstream transport fails before the
abort timer fires, the Lifecycle Proxy fetch returns status exactly 502,
a JSON body whose code field equals CONTAINER_FETCH_ERROR, and an error
message that contains the underlying failure message text. -/
theorem c3_fetch_error_returns_502 (uuid ts : String) (req : HttpRequest)
    (delay : Nat) (msg : String) (h : delay ≤ CONTAINER_TIMEOUT_MS) :
    (listmonkFetch uuid ts req (.failsWith delay msg)).status = 502 ∧
    jsonStrField (listmonkFetch uuid ts req (.failsWith delay msg)).body
      "code" = some "CONTAINER_FETCH_ERROR" ∧
    jsonStrField (listmonkFetch uuid ts req (.failsWith delay msg)).body
      "error" = some ("Container error: " ++ msg) ∧
    ∃ pre, jsonStrField (listmonkFetch uuid ts req (.failsWith delay msg)).body
      "error" = some (pre ++ msg) := by
  have h' : ¬ CONTAINER_TIMEOUT_MS < delay := Nat.not_lt.mpr h
  have hout : containerFetchOutcome (.failsWith delay msg) =
      .otherError msg := by
    simp [containerFetchOutcome, h']
  simp only [listmonkFetch, hout]
  exact ⟨rfl, rfl, rfl, "Container error: ", rfl⟩

/-- Witness for C3 at a concrete input: a connection-refused style failure
at 5 ms yields 502 with code CONTAINER_FETCH_ERROR and the message text. -/
theorem c3_witness :
    (5 : Nat) ≤ CONTAINER_TIMEOUT_MS ∧
    ((listmonkFetch "abcdefab-1234-4abc-8abc-0123456789ab"
        "2026-01-15T10:30:00.000Z" adminReq
        (.failsWith 5 "connection refused")).status = 502 ∧
      jsonStrField (listmonkFetch "abcdefab-1234-4abc-8abc-0123456789ab"
        "2026-01-15T10:30:00.000Z" adminReq
        (.failsWith 5 "connection refused")).body "code" =
        some "CONTAINER_FETCH_ERROR" ∧
      jsonStrField (listmonkFetch "abcdefab-1234-4abc-8abc-0123456789ab"
        "2026-01-15T10:30:00.000Z" adminReq
        (.failsWith 5 "connection refused")).body "error" =
        some ("Container error: " ++ "connection refused") ∧
      ∃ pre, jsonStrField (listmonkFetch "abcdefab-1234-4abc-8abc-0123456789ab"
        "2026-01-15T10:30:00.000Z" adminReq
        (.failsWith 5 "connection refused")).body "error" =
        some (pre ++ "connection refused")) :=
  ⟨by decide,
   c3_fetch_error_returns_502 "abcdefab-1234-4abc-8abc-0123456789ab"
     "2026-01-15T10:30:00.000Z" adminReq 5 "connection refused" (by decide)⟩

/-- C9: when the ADMIN_USER or ADMIN_PASSWORD environment value is the
empty string (the only falsy string), the corresponding
LISTMONK_ADMIN_USER or LISTMONK_ADMIN_PASSWORD value injected into the
container environment is the literal string admin. -/
theorem c9_admin_defaults (e : Env) :
    (e.ADMIN_USER = "" →
      hlookup (envVars e) "LISTMONK_ADMIN_USER" = some "admin") ∧
    (e.ADMIN_PASSWORD = "" →
      hlookup (envVars e) "LISTMONK_ADMIN_PASSWORD" = some "admin") := by
  constructor
  · intro h
    have e1 : hlookup (envVars e) "LISTMONK_ADMIN_USER" =
        some (jsOr e.ADMIN_USER "admin") := rfl
    rw [e1]
    simp [jsOr, h]
  · intro h
    have e2 : hlookup (envVars e) "LISTMONK_ADMIN_PASSWORD" =
        some (jsOr e.ADMIN_PASSWORD "admin") := rfl
    rw [e2]
    simp [jsOr, h]

/-- Witness for C9 at a concrete input: with empty admin variables both
injected values are admin. -/
theorem c9_witness :
    hlookup (envVars emptyAdminEnv) "LISTMONK_ADMIN_USER" = some "admin" ∧
    hlookup (envVars emptyAdminEnv) "LISTMONK_ADMIN_PASSWORD" =
      some "admin" :=
  ⟨(c9_admin_defaults emptyAdminEnv).1 rfl,
   (c9_admin_defaults emptyAdminEnv).2 rfl⟩

/-- C10: the Edge Router classifies by path string equality only, never by
method: for every method string, a request whose path equals the health or
the version route receives the 200 diagnostic response with its diagnostic
body, and the Durable Object handle is not resolved. -/
theorem c10_method_agnostic (e : Env) (uuid ts method : String)
    (hs : List (String × String)) (b : Option (List Nat))
    (dOut : DOOutcome) :
    ((workerFetch e uuid ts ⟨method, "/__health", hs, b⟩ dOut).2 = false ∧
     (workerFetch e uuid ts ⟨method, "/__health", hs, b⟩ dOut).1.status =
       200 ∧
     bodyFieldNames
       (workerFetch e uuid ts ⟨method, "/__health", hs, b⟩ dOut).1.body =
       some ["status", "version", "container", "database", "domain",
             "uptime", "timestamp"]) ∧
    ((workerFetch e uuid ts ⟨method, "/__version", hs, b⟩ dOut).2 = false ∧
     (workerFetch e uuid ts ⟨method, "/__version", hs, b⟩ dOut).1.status =
       200 ∧
     bodyFieldNames
       (workerFetch e uuid ts ⟨method, "/__version", hs, b⟩ dOut).1.body =
       some ["version", "container", "runtime", "database"]) :=
  ⟨⟨rfl, rfl, rfl⟩, ⟨rfl, rfl, rfl⟩⟩

/-- Counterexample for C4: at a concrete routing failure, the JSON code
field is the literal DURABLE_OBJECT_ERROR, not ROUTING_ERROR as claimed. -/
theorem c4_counterexample :
    (workerFetch sampleEnv "abcdefab-1234-4abc-8abc-0123456789ab"
      "2026-01-15T10:30:00.000Z" adminReq
      (.unreachable "Durable Object unavailable")).1.status = 503 ∧
    jsonStrField (workerFetch sampleEnv "abcdefab-1234-4abc-8abc-0123456789ab"
      "2026-01-15T10:30:00.000Z" adminReq
      (.unreachable "Durable Object unavailable")).1.body "code" =
      some "DURABLE_OBJECT_ERROR" ∧
    jsonStrField (workerFetch sampleEnv "abcdefab-1234-4abc-8abc-0123456789ab"
      "2026-01-15T10:30:00.000Z" adminReq
      (.unreachable "Durable Object unavailable")).1.body "code" ≠
      some "ROUTING_ERROR" := by decide

/-- C4 as amended: for every request to a non-diagnostic path, when the
Edge Router fails to obtain the upstream handle or to delegate to it, the
returned response has status 503 and its JSON body code field equals
DURABLE_OBJECT_ERROR. -/
theorem c4_routing_failure_503 (e : Env) (uuid ts msg : String)
    (req : HttpRequest) (h1 : req.pathname ≠ "/__health")
    (h2 : req.pathname ≠ "/__version") :
    (workerFetch e uuid ts req (.unreachable msg)).1.status = 503 ∧
    jsonStrField (workerFetch e uuid ts req (.unreachable msg)).1.body
      "code" = some "DURABLE_OBJECT_ERROR" := by
  simp only [workerFetch, if_neg h1, if_neg h2]
  exact ⟨rfl, rfl⟩

/-- Witness for C4 as amended, at a concrete non-diagnostic request. -/
theorem c4_witness :
    (workerFetch sampleEnv "abcdefab-1234-4abc-8abc-0123456789ab"
      "2026-01-15T10:30:00.000Z" adminReq (.unreachable "boom")).1.status =
      503 ∧
    jsonStrField (workerFetch sampleEnv "abcdefab-1234-4abc-8abc-0123456789ab"
      "2026-01-15T10:30:00.000Z" adminReq (.unreachable "boom")).1.body
      "code" = some "DURABLE_OBJECT_ERROR" :=
  c4_routing_failure_503 sampleEnv "abcdefab-1234-4abc-8abc-0123456789ab"
    "2026-01-15T10:30:00.000Z" "boom" adminReq (by decide) (by decide)

/-- C5: for every request whose path equals the health or the version
route, the Edge Router answers 200 without resolving or calling the
Durable Object handle; the health body has exactly the fields status,
version, container, database, domain, uptime, timestamp, and the version
body has a non-empty version string. -/
theorem c5_diagnostic_paths (e : Env) (uuid ts : String)
    (req : HttpRequest) (dOut : DOOutcome)
    (h : req.pathname = "/__health" ∨ req.pathname = "/__version") :
    (workerFetch e uuid ts req dOut).2 = false ∧
    (workerFetch e uuid ts req dOut).1.status = 200 ∧
    (req.pathname = "/__health" →
      bodyFieldNames (workerFetch e uuid ts req dOut).1.body =
        some ["status", "version", "container", "database", "domain",
              "uptime", "timestamp"]) ∧
    (req.pathname = "/__version" →
      jsonStrField (workerFetch e uuid ts req dOut).1.body "version" =
        some VERSION ∧ VERSION ≠ "") := by
  obtain ⟨m, p, hh, bb⟩ := req
  rcases h with h | h
  · have h' : p = "/__health" := h
    subst h'
    exact ⟨rfl, rfl, fun _ => rfl,
           fun hv => absurd
             (show ("/__health" : String) = "/__version" from hv)
             (by decide)⟩
  · have h' : p = "/__version" := h
    subst h'
    exact ⟨rfl, rfl,
           fun hv => absurd
             (show ("/__version" : String) = "/__health" from hv)
             (by decide),
           fun _ => ⟨rfl, by decide⟩⟩

/-- Witness for C5 at the two concrete diagnostic requests. -/
theorem c5_witness :
    ((workerFetch sampleEnv "abcdefab-1234-4abc-8abc-0123456789ab"
        "2026-01-15T10:30:00.000Z" healthReq (.unreachable "x")).2 = false ∧
      (workerFetch sampleEnv "abcdefab-1234-4abc-8abc-0123456789ab"
        "2026-01-15T10:30:00.000Z" healthReq
        (.unreachable "x")).1.status = 200 ∧
      (healthReq.pathname = "/__health" →
        bodyFieldNames (workerFetch sampleEnv
          "abcdefab-1234-4abc-8abc-0123456789ab"
          "2026-01-15T10:30:00.000Z" healthReq (.unreachable "x")).1.body =
          some ["status", "version", "container", "database", "domain",
                "uptime", "timestamp"]) ∧
      (healthReq.pathname = "/__version" →
        jsonStrField (workerFetch sampleEnv
          "abcdefab-1234-4abc-8abc-0123456789ab"
          "2026-01-15T10:30:00.000Z" healthReq (.unreachable "x")).1.body
          "version" = some VERSION ∧ VERSION ≠ "")) ∧
    ((workerFetch sampleEnv "abcdefab-1234-4abc-8abc-0123456789ab"
        "2026-01-15T10:30:00.000Z" versionReq (.unreachable "x")).2 =
        false ∧
      (workerFetch sampleEnv "abcdefab-1234-4abc-8abc-0123456789ab"
        "2026-01-15T10:30:00.000Z" versionReq
        (.unreachable "x")).1.status = 200 ∧
      (versionReq.pathname = "/__health" →
        bodyFieldNames (workerFetch sampleEnv
          "abcdefab-1234-4abc-8abc-0123456789ab"
          "2026-01-15T10:30:00.000Z" versionReq (.unreachable "x")).1.body =
          some ["status", "version", "container", "database", "domain",
                "uptime", "timestamp"]) ∧
      (versionReq.pathname = "/__version" →
        jsonStrField (workerFetch sampleEnv
          "abcdefab-1234-4abc-8abc-0123456789ab"
          "2026-01-15T10:30:00.000Z" versionReq (.unreachable "x")).1.body
          "version" = some VERSION ∧ VERSION ≠ "")) :=
  ⟨c5_diagnostic_paths sampleEnv "abcdefab-1234-4abc-8abc-0123456789ab"
     "2026-01-15T10:30:00.000Z" healthReq (.unreachable "x")
     (Or.inl rfl),
   c5_diagnostic_paths sampleEnv "abcdefab-1234-4abc-8abc-0123456789ab"
     "2026-01-15T10:30:00.000Z" versionReq (.unreachable "x")
     (Or.inr rfl)⟩

/-- C8: two health calls with no state change return JSON bodies with the
same field list (all values strings by the Body.jsonObj shape), equal on
every field except timestamp; two version calls return identical bodies. -/
theorem c8_diagnostic_idempotence (e : Env) (u1 t1 u2 t2 : String)
    (req1 req2 : HttpRequest) (d1 d2 : DOOutcome) :
    (req1.pathname = "/__health" → req2.pathname = "/__health" →
      bodyFieldNames (workerFetch e u1 t1 req1 d1).1.body =
        bodyFieldNames (workerFetch e u2 t2 req2 d2).1.body ∧
      filterTimestamp (workerFetch e u1 t1 req1 d1).1.body =
        filterTimestamp (workerFetch e u2 t2 req2 d2).1.body) ∧
    (req1.pathname = "/__version" → req2.pathname = "/__version" →
      (workerFetch e u1 t1 req1 d1).1.body =
        (workerFetch e u2 t2 req2 d2).1.body) := by
  obtain ⟨m1, p1, hh1, bb1⟩ := req1
  obtain ⟨m2, p2, hh2, bb2⟩ := req2
  constructor
  · intro h1 h2
    have h1' : p1 = "/__health" := h1
    have h2' : p2 = "/__health" := h2
    subst h1'
    subst h2'
    exact ⟨rfl, rfl⟩
  · intro h1 h2
    have h1' : p1 = "/__version" := h1
    have h2' : p2 = "/__version" := h2
    subst h1'
    subst h2'
    rfl

/-- Witness for C8 at two concrete health calls and two concrete version
calls with differing uuids and timestamps. -/
theorem c8_witness :
    (bodyFieldNames (workerFetch sampleEnv "aaaaaaaa-1111-4aaa-8aaa-0123456789ab"
        "2026-01-15T10:30:00.000Z" healthReq (.unreachable "x")).1.body =
      bodyFieldNames (workerFetch sampleEnv "bbbbbbbb-2222-4bbb-8bbb-0123456789ab"
        "2026-01-15T10:31:00.000Z" healthReq (.unreachable "y")).1.body ∧
     filterTimestamp (workerFetch sampleEnv "aaaaaaaa-1111-4aaa-8aaa-0123456789ab"
        "2026-01-15T10:30:00.000Z" healthReq (.unreachable "x")).1.body =
      filterTimestamp (workerFetch sampleEnv "bbbbbbbb-2222-4bbb-8bbb-0123456789ab"
        "2026-01-15T10:31:00.000Z" healthReq (.unreachable "y")).1.body) ∧
    (workerFetch sampleEnv "aaaaaaaa-1111-4aaa-8aaa-0123456789ab"
        "2026-01-15T10:30:00.000Z" versionReq (.unreachable "x")).1.body =
      (workerFetch sampleEnv "bbbbbbbb-2222-4bbb-8bbb-0123456789ab"
        "2026-01-15T10:31:00.000Z" versionReq (.unreachable "y")).1.body :=
  ⟨(c8_diagnostic_idempotence sampleEnv "aaaaaaaa-1111-4aaa-8aaa-0123456789ab"
      "2026-01-15T10:30:00.000Z" "bbbbbbbb-2222-4bbb-8bbb-0123456789ab"
      "2026-01-15T10:31:00.000Z" healthReq healthReq (.unreachable "x")
      (.unreachable "y")).1 rfl rfl,
   (c8_diagnostic_idempotence sampleEnv "aaaaaaaa-1111-4aaa-8aaa-0123456789ab"
      "2026-01-15T10:30:00.000Z" "bbbbbbbb-2222-4bbb-8bbb-0123456789ab"
      "2026-01-15T10:31:00.000Z" versionReq versionReq (.unreachable "x")
      (.unreachable "y")).2 rfl rfl⟩

/-- Counterexample for C1: a successful forward whose upstream response
already carries X-Frame-Options DENY. The returned header set is not a
superset of the upstream header pairs: Headers.set overwrites the value, so
the pair (X-Frame-Options, DENY) is gone from the returned response. -/
theorem c1_counterexample :
    (listmonkFetch "abcdefab-1234-4abc-8abc-0123456789ab"
      "2026-01-15T10:30:00.000Z" adminReq
      (.responds 5 xfoUpstream)).status = 200 ∧
    ("X-Frame-Options", "DENY") ∈ xfoUpstream.headers ∧
    ("X-Frame-Options", "DENY") ∉
      (listmonkFetch "abcdefab-1234-4abc-8abc-0123456789ab"
        "2026-01-15T10:30:00.000Z" adminReq
        (.responds 5 xfoUpstream)).headers := by decide

/-- C1 as amended: for every successful forward, the returned body bytes,
status code and status text are the upstream ones; every upstream header
whose name is not among the seven added names is preserved as a pair; the
set of header names only grows; and the seven added headers are present
with their fixed values. Upstream values of the seven added names may be
overwritten, which is the one deviation from the claim as stated. -/
theorem c1_round_trip (uuid ts : String) (req : HttpRequest) (delay : Nat)
    (r : UpstreamResp) (h : delay ≤ CONTAINER_TIMEOUT_MS) :
    bodyBytes (listmonkFetch uuid ts req (.responds delay r)).body =
      some r.body ∧
    (listmonkFetch uuid ts req (.responds delay r)).status = r.status ∧
    (listmonkFetch uuid ts req (.responds delay r)).statusText =
      r.statusText ∧
    (∀ a b, (a, b) ∈ r.headers →
      (∀ n ∈ addedHeaderNames, lowerName a ≠ lowerName n) →
      (a, b) ∈ (listmonkFetch uuid ts req (.responds delay r)).headers) ∧
    (∀ a b, (a, b) ∈ r.headers →
      ∃ c, (a, c) ∈
        (listmonkFetch uuid ts req (.responds delay r)).headers) ∧
    hlookup (listmonkFetch uuid ts req (.responds delay r)).headers
      "X-Request-Id" = some (generateRequestId uuid) ∧
    hlookup (listmonkFetch uuid ts req (.responds delay r)).headers
      "X-Container-Proxied" = some "true" ∧
    hlookup (listmonkFetch uuid ts req (.responds delay r)).headers
      "X-Powered-By" = some "Cloudflare Containers" ∧
    hlookup (listmonkFetch uuid ts req (.responds delay r)).headers
      "X-App-Version" = some VERSION ∧
    hlookup (listmonkFetch uuid ts req (.responds delay r)).headers
      "X-Content-Type-Options" = some "nosniff" ∧
    hlookup (listmonkFetch uuid ts req (.responds delay r)).headers
      "X-Frame-Options" = some "SAMEORIGIN" ∧
    hlookup (listmonkFetch uuid ts req (.responds delay r)).headers
      "Referrer-Policy" = some "strict-origin-when-cross-origin" := by
  have h' : ¬ CONTAINER_TIMEOUT_MS < delay := Nat.not_lt.mpr h
  have hres : listmonkFetch uuid ts req (.responds delay r) =
      augmentResponse
        { status := r.status
          statusText := r.statusText
          headers := r.headers
          body := .bytes r.body }
        (generateRequestId uuid) := by
    simp [listmonkFetch, containerFetchOutcome, h']
  rw [hres]
  refine ⟨rfl, rfl, rfl, ?_, ?_,
    augment_lookup_request_id _ _, augment_lookup_proxied _ _,
    augment_lookup_powered_by _ _, augment_lookup_app_version _ _,
    augment_lookup_nosniff _ _, augment_lookup_frame_options _ _,
    augment_lookup_referrer_policy _ _⟩
  · intro a b hm hn
    rw [augment_headers_eq]
    refine mem_hset_of_ne _ _ ?_ (mem_hset_of_ne _ _ ?_
      (mem_hset_of_ne _ _ ?_ (mem_hset_of_ne _ _ ?_
      (mem_hset_of_ne _ _ ?_ (mem_hset_of_ne _ _ ?_
      (mem_hset_of_ne _ _ ?_ hm))))))
    · exact hn "Referrer-Policy" (by decide)
    · exact hn "X-Frame-Options" (by decide)
    · exact hn "X-Content-Type-Options" (by decide)
    · exact hn "X-App-Version" (by decide)
    · exact hn "X-Powered-By" (by decide)
    · exact hn "X-Container-Proxied" (by decide)
    · exact hn "X-Request-Id" (by decide)
  · intro a b hm
    rw [augment_headers_eq]
    obtain ⟨c1, h1⟩ :=
      exists_mem_hset r.headers "X-Request-Id" (generateRequestId uuid) hm
    obtain ⟨c2, h2⟩ := exists_mem_hset _ "X-Container-Proxied" "true" h1
    obtain ⟨c3, h3⟩ :=
      exists_mem_hset _ "X-Powered-By" "Cloudflare Containers" h2
    obtain ⟨c4, h4⟩ := exists_mem_hset _ "X-App-Version" VERSION h3
    obtain ⟨c5, h5⟩ :=
      exists_mem_hset _ "X-Content-Type-Options" "nosniff" h4
    obtain ⟨c6, h6⟩ := exists_mem_hset _ "X-Frame-Options" "SAMEORIGIN" h5
    obtain ⟨c7, h7⟩ := exists_mem_hset _ "Referrer-Policy"
      "strict-origin-when-cross-origin" h6
    exact ⟨c7, h7⟩

/-- Witness for C1 as amended, at a concrete successful forward. -/
theorem c1_witness :
    (5 : Nat) ≤ CONTAINER_TIMEOUT_MS ∧
    bodyBytes (listmonkFetch "abcdefab-1234-4abc-8abc-0123456789ab"
      "2026-01-15T10:30:00.000Z" adminReq
      (.responds 5 plainUpstream)).body = some [72, 105] ∧
    (listmonkFetch "abcdefab-1234-4abc-8abc-0123456789ab"
      "2026-01-15T10:30:00.000Z" adminReq
      (.responds 5 plainUpstream)).status = 200 ∧
    (listmonkFetch "abcdefab-1234-4abc-8abc-0123456789ab"
      "2026-01-15T10:30:00.000Z" adminReq
      (.responds 5 plainUpstream)).statusText = "OK" ∧
    ("Content-Type", "text/html") ∈
      (listmonkFetch "abcdefab-1234-4abc-8abc-0123456789ab"
        "2026-01-15T10:30:00.000Z" adminReq
        (.responds 5 plainUpstream)).headers ∧
    hlookup (listmonkFetch "abcdefab-1234-4abc-8abc-0123456789ab"
      "2026-01-15T10:30:00.000Z" adminReq
      (.responds 5 plainUpstream)).headers "X-Request-Id" =
      some "abcdefab1234" ∧
    hlookup (listmonkFetch "abcdefab-1234-4abc-8abc-0123456789ab"
      "2026-01-15T10:30:00.000Z" adminReq
      (.responds 5 plainUpstream)).headers "X-Container-Proxied" =
      some "true" ∧
    hlookup (listmonkFetch "abcdefab-1234-4abc-8abc-0123456789ab"
      "2026-01-15T10:30:00.000Z" adminReq
      (.responds 5 plainUpstream)).headers "X-Powered-By" =
      some "Cloudflare Containers" ∧
    hlookup (listmonkFetch "abcdefab-1234-4abc-8abc-0123456789ab"
      "2026-01-15T10:30:00.000Z" adminReq
      (.responds 5 plainUpstream)).headers "X-App-Version" =
      some "2.1.0" ∧
    hlookup (listmonkFetch "abcdefab-1234-4abc-8abc-0123456789ab"
      "2026-01-15T10:30:00.000Z" adminReq
      (.responds 5 plainUpstream)).headers "X-Content-Type-Options" =
      some "nosniff" ∧
    hlookup (listmonkFetch "abcdefab-1234-4abc-8abc-0123456789ab"
      "2026-01-15T10:30:00.000Z" adminReq
      (.responds 5 plainUpstream)).headers "X-Frame-Options" =
      some "SAMEORIGIN" ∧
    hlookup (listmonkFetch "abcdefab-1234-4abc-8abc-0123456789ab"
      "2026-01-15T10:30:00.000Z" adminReq
      (.responds 5 plainUpstream)).headers "Referrer-Policy" =
      some "strict-origin-when-cross-origin" := by
  have main := c1_round_trip "abcdefab-1234-4abc-8abc-0123456789ab"
    "2026-01-15T10:30:00.000Z" adminReq 5 plainUpstream (by decide)
  exact ⟨by decide, main.1, main.2.1, main.2.2.1,
    main.2.2.2.1 "Content-Type" "text/html" (by decide) (by decide),
    main.2.2.2.2.2.1, main.2.2.2.2.2.2.1, main.2.2.2.2.2.2.2.1,
    main.2.2.2.2.2.2.2.2.1, main.2.2.2.2.2.2.2.2.2.1,
    main.2.2.2.2.2.2.2.2.2.2.1, main.2.2.2.2.2.2.2.2.2.2.2⟩

/-- Counterexample for C6: the request id truncates the UUID to its first
12 hex characters, so two distinct UUID draws in one run can yield the same
X-Request-Id value: uniqueness per request is not guaranteed. -/
theorem c6_counterexample :
    "aaaaaaaa-aaaa-4aaa-8aaa-aaaaaaaaaaaa" ≠
      "aaaaaaaa-aaaa-4aaa-8aaa-aaaaaaaaaaab" ∧
    hlookup (workerFetch sampleEnv "aaaaaaaa-aaaa-4aaa-8aaa-aaaaaaaaaaaa"
      "2026-01-15T10:30:00.000Z" healthReq (.unreachable "x")).1.headers
      "X-Request-Id" = some "aaaaaaaaaaaa" ∧
    hlookup (workerFetch sampleEnv "aaaaaaaa-aaaa-4aaa-8aaa-aaaaaaaaaaab"
      "2026-01-15T10:31:00.000Z" healthReq (.unreachable "x")).1.headers
      "X-Request-Id" = some "aaaaaaaaaaaa" := by decide

/-- C6 as amended: every response of the primary worker carries an
X-Request-Id header whose value is non-empty (given that the run-time UUID
draws have at least one character besides dashes, which canonical UUIDs
always do). Uniqueness per request holds only with overwhelming
probability, not with certainty, since the id is a 12 character truncation
of the UUID. -/
theorem c6_request_id_nonempty (e : Env) (uuid ts : String)
    (req : HttpRequest) (dOut : DOOutcome)
    (h : stripDashes uuid ≠ "")
    (h2 : ∀ u2 t2 ub, dOut = .reachable u2 t2 ub → stripDashes u2 ≠ "") :
    ∃ rid, hlookup (workerFetch e uuid ts req dOut).1.headers
      "X-Request-Id" = some rid ∧ rid ≠ "" := by
  by_cases hh : req.pathname = "/__health"
  · refine ⟨generateRequestId uuid, ?_, generateRequestId_ne_empty h⟩
    have hw : (workerFetch e uuid ts req dOut).1.headers =
        [("Content-Type", "application/json"),
         ("X-Request-Id", generateRequestId uuid)] ++ STANDARD_HEADERS ++
        [("Cache-Control", "no-cache, no-store, must-revalidate")] := by
      simp [workerFetch, hh]
    rw [hw]
    rfl
  · by_cases hv : req.pathname = "/__version"
    · refine ⟨generateRequestId uuid, ?_, generateRequestId_ne_empty h⟩
      have hw : (workerFetch e uuid ts req dOut).1.headers =
          [("Content-Type", "application/json"),
           ("X-Request-Id", generateRequestId uuid)] ++
          STANDARD_HEADERS := by
        simp [workerFetch, hh, hv]
      rw [hw]
      rfl
    · cases dOut with
      | unreachable msg =>
          refine ⟨generateRequestId uuid, ?_, generateRequestId_ne_empty h⟩
          have hw : (workerFetch e uuid ts req (.unreachable msg)).1 =
              buildErrorResponse
                ("Service temporarily unavailable: " ++ msg)
                "DURABLE_OBJECT_ERROR" HTTP_SERVICE_UNAVAILABLE
                (generateRequestId uuid) ts := by
            simp [workerFetch, hh, hv]
          rw [hw]
          exact buildError_request_id_header _ _ _ _ _
      | reachable u2 t2 ub =>
          have hu2 : stripDashes u2 ≠ "" := h2 u2 t2 ub rfl
          refine ⟨generateRequestId u2, ?_,
            generateRequestId_ne_empty hu2⟩
          have hw : (workerFetch e uuid ts req (.reachable u2 t2 ub)).1 =
              listmonkFetch u2 t2 req ub := by
            simp [workerFetch, hh, hv]
          rw [hw]
          cases hout : containerFetchOutcome ub with
          | ok r =>
              have hl : listmonkFetch u2 t2 req ub =
                  augmentResponse
                    { status := r.status
                      statusText := r.statusText
                      headers := r.headers
                      body := .bytes r.body } (generateRequestId u2) := by
                simp [listmonkFetch, hout]
              rw [hl]
              exact augment_lookup_request_id _ _
          | abortError =>
              have hl : listmonkFetch u2 t2 req ub =
                  buildErrorResponse "Container request timed out"
                    "CONTAINER_TIMEOUT" HTTP_GATEWAY_TIMEOUT
                    (generateRequestId u2) t2 := by
                simp [listmonkFetch, hout]
              rw [hl]
              exact buildError_request_id_header _ _ _ _ _
          | otherError msg =>
              have hl : listmonkFetch u2 t2 req ub =
                  buildErrorResponse ("Container error: " ++ msg)
                    "CONTAINER_FETCH_ERROR" HTTP_BAD_GATEWAY
                    (generateRequestId u2) t2 := by
                simp [listmonkFetch, hout]
              rw [hl]
              exact buildError_request_id_header _ _ _ _ _

/-- Witness for C6 as amended, at a concrete input on the routing failure
path. -/
theorem c6_witness :
    stripDashes "abcdefab-1234-4abc-8abc-0123456789ab" ≠ "" ∧
    ∃ rid, hlookup (workerFetch sampleEnv
      "abcdefab-1234-4abc-8abc-0123456789ab" "2026-01-15T10:30:00.000Z"
      adminReq (.unreachable "boom")).1.headers "X-Request-Id" =
      some rid ∧ rid ≠ "" :=
  ⟨by decide,
   c6_request_id_nonempty sampleEnv "abcdefab-1234-4abc-8abc-0123456789ab"
     "2026-01-15T10:30:00.000Z" adminReq (.unreachable "boom") (by decide)
     (by intro u2 t2 ub heq; cases heq)⟩

/-- Counterexample for C7: in the duplicate implementation cited by the
claim, a caught container failure is returned as a plain text 502 body,
not as the structured five field JSON error shape. -/
theorem c7_counterexample :
    (dupListmonkFetch (.err "connection refused")).status = 502 ∧
    isStructuredErrorBody
      (dupListmonkFetch (.err "connection refused")).body = false := by
  decide

/-- C7 as amended: in the primary implementation every failure path
(routing failure in the Edge Router, abort timeout and transport failure
in the Lifecycle Proxy) yields a JSON body with exactly the fields error,
code, request_id, timestamp, version; the duplicate implementation also
catches its failures but emits them as plain text bodies with status 502
instead of the structured shape. -/
theorem c7_structured_failures (e : Env) (uuid ts msg dmsg : String)
    (req : HttpRequest) (ub : UpstreamBehavior) (delay : Nat) :
    (req.pathname ≠ "/__health" → req.pathname ≠ "/__version" →
      isStructuredErrorBody
        (workerFetch e uuid ts req (.unreachable msg)).1.body = true) ∧
    (CONTAINER_TIMEOUT_MS < ubDelay ub →
      isStructuredErrorBody (listmonkFetch uuid ts req ub).body = true) ∧
    (delay ≤ CONTAINER_TIMEOUT_MS →
      isStructuredErrorBody
        (listmonkFetch uuid ts req (.failsWith delay dmsg)).body = true) ∧
    (dupListmonkFetch (.err dmsg)).status = 502 ∧
    (dupListmonkFetch (.err dmsg)).body =
      .textBody ("Container error: " ++ dmsg) := by
  refine ⟨?_, ?_, ?_, rfl, rfl⟩
  · intro h1 h2
    simp only [workerFetch, if_neg h1, if_neg h2]
    exact buildError_structured _ _ _ _ _
  · intro hlt
    have hout : containerFetchOutcome ub = .abortError := by
      cases ub with
      | responds d r =>
          simp only [ubDelay] at hlt
          simp [containerFetchOutcome, hlt]
      | failsWith d m =>
          simp only [ubDelay] at hlt
          simp [containerFetchOutcome, hlt]
    simp only [listmonkFetch, hout]
    exact buildError_structured _ _ _ _ _
  · intro hle
    have h' : ¬ CONTAINER_TIMEOUT_MS < delay := Nat.not_lt.mpr hle
    have hout : containerFetchOutcome (.failsWith delay dmsg) =
        .otherError dmsg := by
      simp [containerFetchOutcome, h']
    simp only [listmonkFetch, hout]
    exact buildError_structured _ _ _ _ _

/-- Witness for C7 as amended, at concrete inputs on all three primary
failure paths and on the duplicate implementation failure path. -/
theorem c7_witness :
    isStructuredErrorBody (workerFetch sampleEnv
      "abcdefab-1234-4abc-8abc-0123456789ab" "2026-01-15T10:30:00.000Z"
      adminReq (.unreachable "boom")).1.body = true ∧
    isStructuredErrorBody (listmonkFetch
      "abcdefab-1234-4abc-8abc-0123456789ab" "2026-01-15T10:30:00.000Z"
      adminReq (.responds 30001 plainUpstream)).body = true ∧
    isStructuredErrorBody (listmonkFetch
      "abcdefab-1234-4abc-8abc-0123456789ab" "2026-01-15T10:30:00.000Z"
      adminReq (.failsWith 5 "connection reset")).body = true ∧
    (dupListmonkFetch (.err "connection reset")).status = 502 ∧
    (dupListmonkFetch (.err "connection reset")).body =
      .textBody ("Container error: " ++ "connection reset") := by
  have main := c7_structured_failures sampleEnv
    "abcdefab-1234-4abc-8abc-0123456789ab" "2026-01-15T10:30:00.000Z"
    "boom" "connection reset" adminReq (.responds 30001 plainUpstream) 5
  exact ⟨main.1 (by decide) (by decide), main.2.1 (by decide),
    main.2.2.1 (by decide), main.2.2.2.1, main.2.2.2.2⟩
